import Mathlib

/-!
Verification development for the Dujyo S2E reward-pool economics.

The two economic scripts (auditoria_economica_s2e.py and
calcular_correcciones_pool.py) are embedded shallowly: every numeric
constant and every arithmetic expression of the scripts becomes a Lean
definition over the exact rationals (the scripts use Python floats; the
embedding models the intended real-number arithmetic exactly).  The
engineered core components that the specification describes but that are
absent from the repository sources (QuotaTracker, EmissionCalculator,
PoolLedger, SustainabilityProjector) are modelled from the specification
and are marked as such in their doc comments.
-/

namespace Dujyo

/-- Classification band printed by the sustainability analysis of
auditoria_economica_s2e.py, lines 151 to 160: EXCELENTE, BUENO,
ATENCION, or INSUFICIENTE. -/
inductive Band where
  | excellent
  | good
  | attention
  | insufficient
deriving DecidableEq

namespace Auditoria

/-- auditoria_economica_s2e.py line 11. -/
def LISTENER_RATE : ℚ := 3 / 10

/-- auditoria_economica_s2e.py line 12. -/
def ARTIST_RATE : ℚ := 3 / 2

/-- auditoria_economica_s2e.py line 13. -/
def DAILY_LIMIT_LISTENER : ℚ := 90

/-- auditoria_economica_s2e.py line 14. -/
def DAILY_LIMIT_ARTIST : ℚ := 120

/-- auditoria_economica_s2e.py line 15. -/
def POOL_MONTHLY : ℚ := 1000000

/-- auditoria_economica_s2e.py line 16. -/
def DAYS_PER_MONTH : ℚ := 30

/-- auditoria_economica_s2e.py line 28. -/
def NUM_BOTS : ℚ := 1000

/-- auditoria_economica_s2e.py line 29. -/
def MINUTES_PER_DAY : ℚ := 1440

/-- auditoria_economica_s2e.py line 38: DYO per bot per day under the
daily limit. -/
def dyo_per_bot_per_day_with_limit : ℚ := LISTENER_RATE * DAILY_LIMIT_LISTENER

/-- auditoria_economica_s2e.py line 39. -/
def total_dyo_per_day_with_limit : ℚ := NUM_BOTS * dyo_per_bot_per_day_with_limit

/-- auditoria_economica_s2e.py line 49: days until the pool is exhausted
under the farming scenario. -/
def days_to_exhaust : ℚ := POOL_MONTHLY / total_dyo_per_day_with_limit

/-- auditoria_economica_s2e.py line 56, generalized from the fixed 30 days
of the script to d days of identical debits. -/
def consumption_days (d : ℕ) : ℚ := total_dyo_per_day_with_limit * d

/-- auditoria_economica_s2e.py line 57, generalized from the fixed 30 days
of the script to d days of identical debits. -/
def pool_remaining_days (d : ℕ) : ℚ := max 0 (POOL_MONTHLY - consumption_days d)

/-- auditoria_economica_s2e.py line 305. -/
def farming_days : ℚ := POOL_MONTHLY / (1000 * DAILY_LIMIT_LISTENER * LISTENER_RATE)

/-- auditoria_economica_s2e.py line 114: listeners = int(total_users *
listener_ratio); Python int() truncation on a nonnegative product is the
floor. -/
def listeners_of (total_users listener_ratio : ℚ) : ℤ :=
  ⌊total_users * listener_ratio⌋

/-- auditoria_economica_s2e.py line 119: the daily limit applied to the
requested average minutes. -/
def actual_minutes_listeners (avg_min : ℚ) : ℚ := min avg_min DAILY_LIMIT_LISTENER

/-- auditoria_economica_s2e.py line 130. -/
def listener_dyo_per_day (listeners avg_min : ℚ) : ℚ :=
  listeners * actual_minutes_listeners avg_min * LISTENER_RATE

/-- auditoria_economica_s2e.py line 135. -/
def artist_dyo_per_day (listeners avg_min : ℚ) : ℚ :=
  listeners * actual_minutes_listeners avg_min * ARTIST_RATE

/-- auditoria_economica_s2e.py line 137. -/
def total_dyo_per_day (listeners avg_min : ℚ) : ℚ :=
  listener_dyo_per_day listeners avg_min + artist_dyo_per_day listeners avg_min

/-- auditoria_economica_s2e.py line 138. -/
def total_dyo_per_month (listeners avg_min : ℚ) : ℚ :=
  total_dyo_per_day listeners avg_min * DAYS_PER_MONTH

/-- auditoria_economica_s2e.py line 140. -/
def pool_percentage (monthly : ℚ) : ℚ := monthly / POOL_MONTHLY * 100

/-- auditoria_economica_s2e.py line 141: months of runway, with the guard
total_dyo_per_month > 0; the float inf of the Python source is the top
element of WithTop. -/
def months_sustainable (monthly : ℚ) : WithTop ℚ :=
  if 0 < monthly then ((POOL_MONTHLY / monthly : ℚ) : WithTop ℚ) else ⊤

/-- auditoria_economica_s2e.py lines 151 to 160: the classification the
script prints for a given projected monthly emission. -/
def classify (monthly : ℚ) : Band :=
  if pool_percentage monthly ≤ 100 then
    if ((12 : ℚ) : WithTop ℚ) ≤ months_sustainable monthly then Band.excellent
    else if ((6 : ℚ) : WithTop ℚ) ≤ months_sustainable monthly then Band.good
    else Band.attention
  else Band.insufficient

end Auditoria

namespace Correcciones

/-- calcular_correcciones_pool.py line 9. -/
def LISTENER_RATE_CURRENT : ℚ := 3 / 10

/-- calcular_correcciones_pool.py line 10. -/
def ARTIST_RATE_CURRENT : ℚ := 3 / 2

/-- calcular_correcciones_pool.py line 11. -/
def POOL_CURRENT : ℚ := 1000000

/-- calcular_correcciones_pool.py line 14. -/
def DAYS_TARGET : ℚ := 30

/-- calcular_correcciones_pool.py line 17. -/
def LISTENERS : ℚ := 700

/-- calcular_correcciones_pool.py line 18. -/
def ARTISTS : ℚ := 300

/-- calcular_correcciones_pool.py line 19. -/
def AVG_MINUTES : ℚ := 60

/-- calcular_correcciones_pool.py line 28. -/
def listener_dyo_per_day : ℚ := LISTENERS * AVG_MINUTES * LISTENER_RATE_CURRENT

/-- calcular_correcciones_pool.py line 29. -/
def artist_dyo_per_day : ℚ := LISTENERS * AVG_MINUTES * ARTIST_RATE_CURRENT

/-- calcular_correcciones_pool.py line 30. -/
def total_dyo_per_day : ℚ := listener_dyo_per_day + artist_dyo_per_day

/-- calcular_correcciones_pool.py line 31. -/
def total_dyo_per_month : ℚ := total_dyo_per_day * 30

/-- calcular_correcciones_pool.py line 36: the printed number of days the
pool lasts at the current consumption. -/
def days_lasting : ℚ := POOL_CURRENT / total_dyo_per_day

/-- calcular_correcciones_pool.py line 49. -/
def target_dyo_per_day : ℚ := POOL_CURRENT / DAYS_TARGET

/-- calcular_correcciones_pool.py line 58. -/
def total_listening_minutes : ℚ := LISTENERS * AVG_MINUTES

/-- calcular_correcciones_pool.py line 59. -/
def target_total_rate : ℚ := target_dyo_per_day / total_listening_minutes

/-- calcular_correcciones_pool.py line 75. -/
def proposed_listener_rate : ℚ := target_total_rate / 6

/-- calcular_correcciones_pool.py line 76. -/
def proposed_artist_rate : ℚ := proposed_listener_rate * 5

/-- calcular_correcciones_pool.py line 85. -/
def new_listener_dyo : ℚ := LISTENERS * AVG_MINUTES * proposed_listener_rate

/-- calcular_correcciones_pool.py line 86. -/
def new_artist_dyo : ℚ := LISTENERS * AVG_MINUTES * proposed_artist_rate

/-- calcular_correcciones_pool.py line 87. -/
def new_total_dyo : ℚ := new_listener_dyo + new_artist_dyo

/-- calcular_correcciones_pool.py line 88. -/
def new_days : ℚ := POOL_CURRENT / new_total_dyo

end Correcciones

/-- Modelled from the spec: QuotaTracker.check_and_reserve (section 4.1);
the engineered quota component is absent from the repository sources, whose
only analogue is the capped-minutes expression of
auditoria_economica_s2e.py line 119.  Returns the granted minutes
min(requested, cap - used_minutes_today). -/
def check_and_reserve (used cap requested : ℚ) : ℚ := min requested (cap - used)

/-- Modelled from the spec: EmissionCalculator.compute (section 4.2); the
engineered component is absent from the repository sources, whose analogue
is the per-day share arithmetic of auditoria_economica_s2e.py lines 130
and 135.  Computes (listener_share, artist_share) from granted minutes. -/
def compute (granted lrate arate : ℚ) : ℚ × ℚ := (granted * lrate, granted * arate)

/-- Modelled from the spec: the emission path of section 2, composing the
quota grant with the share computation, so that shares are derived from
the granted, post-cap minutes. -/
def session_emission (used cap requested lrate arate : ℚ) : ℚ × ℚ :=
  compute (check_and_reserve used cap requested) lrate arate

/-- Modelled from the spec: PoolState (section 3); absent from the
repository sources, whose analogue is the pool constant and remaining
balance of auditoria_economica_s2e.py lines 15 and 57. -/
structure PoolState where
  capacity : ℚ
  remaining : ℚ
deriving DecidableEq

/-- Modelled from the spec: EmissionRecord shares (section 3). -/
structure EmissionRecord where
  listener_share : ℚ
  artist_share : ℚ
deriving DecidableEq

/-- Total amount debited from the pool by one emission record. -/
def EmissionRecord.total (r : EmissionRecord) : ℚ := r.listener_share + r.artist_share

/-- Modelled from the spec: PoolLedger.debit (section 4.3); absent from
the repository sources.  The check remaining is at least the amount and
the decrement are one atomic step; on failure no record is appended. -/
def debit (s : PoolState) (lshare ashare : ℚ) : Option (PoolState × EmissionRecord) :=
  if lshare + ashare ≤ s.remaining then
    some (⟨s.capacity, s.remaining - (lshare + ashare)⟩, ⟨lshare, ashare⟩)
  else none

/-- Modelled from the spec: a sequence of debit attempts against the pool
(any linearization of concurrent sessions, section 5); failed debits are
skipped and append no record. -/
def run_debits (s : PoolState) : List (ℚ × ℚ) → PoolState × List EmissionRecord
  | [] => (s, [])
  | (l, a) :: rest =>
    match debit s l a with
    | some (s2, r) => ((run_debits s2 rest).1, r :: (run_debits s2 rest).2)
    | none => run_debits s rest

/-- Sum of the emitted shares over a list of emission records. -/
def emitted_sum (rs : List EmissionRecord) : ℚ := (rs.map EmissionRecord.total).sum

/-- Modelled from the spec: SustainabilityProjector (section 4.5),
days_remaining = remaining_balance / velocity; absent as a balance-general
function from the repository sources, which fix the balance to
POOL_MONTHLY in auditoria_economica_s2e.py line 141. -/
def days_remaining (balance velocity : ℚ) : ℚ := balance / velocity

/-- Modelled from the spec: projected monthly emission total at a given
daily velocity, over the 30-day epoch of the scripts. -/
def projected_monthly (velocity : ℚ) : ℚ := velocity * 30

/-- Modelled from the spec: SustainabilityProjector classification
(section 4.5); band order transcribed from the classification of
auditoria_economica_s2e.py lines 151 to 160, generalized from the fixed
balance POOL_MONTHLY of the script to an arbitrary balance, with one
epoch-length equal to 30 days. -/
def projector_band (balance velocity capacity : ℚ) : Band :=
  if capacity < projected_monthly velocity then Band.insufficient
  else if 12 * 30 ≤ days_remaining balance velocity then Band.excellent
  else if 6 * 30 ≤ days_remaining balance velocity then Band.good
  else Band.attention

/-- A snapshot of one account as seen by the anomaly rules of
auditoria_economica_s2e.py: its id, the device/IP fingerprint, and the
minutes used today. -/
structure AccountObs where
  account_id : ℕ
  ip : ℕ
  used_minutes_today : ℚ
deriving DecidableEq

/-- auditoria_economica_s2e.py line 245: an account reaches the daily
listener limit. -/
def reaches_daily_limit (a : AccountObs) : Bool :=
  a.used_minutes_today == Auditoria.DAILY_LIMIT_LISTENER

/-- Number of distinct accounts on the given IP fingerprint that reach
the daily limit, as counted by the alert of auditoria_economica_s2e.py
line 245. -/
def accounts_at_limit_on_ip (obs : List AccountObs) (ip : ℕ) : ℕ :=
  ((obs.filter (fun a => a.ip == ip && reaches_daily_limit a)).map
    (fun a => a.account_id)).dedup.length

/-- auditoria_economica_s2e.py line 245: ALERTA si mas de 5 cuentas desde
la misma IP alcanzan el limite diario. -/
def ip_cluster_alert (obs : List AccountObs) (ip : ℕ) : Bool :=
  decide (5 < accounts_at_limit_on_ip obs ip)

/-- auditoria_economica_s2e.py line 270: the anti-farm recommendation of
at most 3 active accounts from the same IP simultaneously (a session
limit, distinct from the alert rule of line 245). -/
def MAX_ACTIVE_ACCOUNTS_PER_IP : ℕ := 3

end Dujyo

open Dujyo

/-- The value of days_to_exhaust, unfolded to a single quotient. -/
theorem days_to_exhaust_eq : Auditoria.days_to_exhaust = 1000000 / 27000 := by
  norm_num [Auditoria.days_to_exhaust, Auditoria.total_dyo_per_day_with_limit,
    Auditoria.dyo_per_bot_per_day_with_limit, Auditoria.NUM_BOTS, Auditoria.LISTENER_RATE,
    Auditoria.DAILY_LIMIT_LISTENER, Auditoria.POOL_MONTHLY]

/-- The ceiling of days_to_exhaust is 38, not 37. -/
theorem ceil_days_to_exhaust : ⌈Auditoria.days_to_exhaust⌉ = 38 := by
  rw [days_to_exhaust_eq, Int.ceil_eq_iff]
  norm_num

/-- Claim C1, counterexample: the ceiling of 1,000,000 / 27,000 is not 37,
and after 37 days of the farming debits the pool is not yet exhausted
(1,000 DYO remain). -/
theorem farming_exhaustion_cex :
    ⌈Auditoria.days_to_exhaust⌉ ≠ 37 ∧ Auditoria.pool_remaining_days 37 ≠ 0 := by
  constructor
  · rw [ceil_days_to_exhaust]; decide
  · rw [show Auditoria.pool_remaining_days 37 = 1000 by
      norm_num [Auditoria.pool_remaining_days, Auditoria.consumption_days,
        Auditoria.total_dyo_per_day_with_limit, Auditoria.dyo_per_bot_per_day_with_limit,
        Auditoria.NUM_BOTS, Auditoria.LISTENER_RATE, Auditoria.DAILY_LIMIT_LISTENER,
        Auditoria.POOL_MONTHLY]]
    norm_num

/-- Claim C1 (amended): with 1000 accounts each requesting 1440 minutes
under listener_rate = 0.3 and daily_limit_listener = 90, each account is
granted exactly 90 minutes, the daily pool debit is 27,000 DYO, the
scripts compute days_to_exhaust = farming_days = 1,000,000 / 27,000
(about 37.04, with no ceiling applied), and the 1,000,000 pool is
exhausted after ⌈1,000,000 / 27,000⌉ = 38 days of such debits: after 37
days 1,000 DYO remain and after 38 days the remaining pool is 0. -/
theorem farming_exhaustion :
    Auditoria.actual_minutes_listeners 1440 = 90 ∧
    Auditoria.total_dyo_per_day_with_limit = 27000 ∧
    Auditoria.days_to_exhaust = 1000000 / 27000 ∧
    Auditoria.farming_days = Auditoria.days_to_exhaust ∧
    ⌈Auditoria.days_to_exhaust⌉ = 38 ∧
    Auditoria.pool_remaining_days 37 = 1000 ∧
    Auditoria.pool_remaining_days 38 = 0 := by
  refine ⟨?_, ?_, days_to_exhaust_eq, ?_, ceil_days_to_exhaust, ?_, ?_⟩ <;>
    norm_num [Auditoria.actual_minutes_listeners, Auditoria.total_dyo_per_day_with_limit,
      Auditoria.dyo_per_bot_per_day_with_limit, Auditoria.NUM_BOTS, Auditoria.LISTENER_RATE,
      Auditoria.DAILY_LIMIT_LISTENER, Auditoria.POOL_MONTHLY, Auditoria.farming_days,
      Auditoria.days_to_exhaust, Auditoria.pool_remaining_days, Auditoria.consumption_days]

/-- Claim C2: for every balance b and positive velocity v the projection
returns days_remaining = b / v; the classification is insufficient
exactly when the projected monthly total exceeds capacity, and otherwise
it is excellent at or above 12 epoch-lengths (360 days) of runway, good
at or above 6 epoch-lengths (180 days), and attention below that; for
balance 1,000,000 and velocity 27,000 per day the result lies strictly
between 37.03 and 37.05 days (about 37.04) and falls in the attention
band. -/
theorem sustainability_projection (b v cap : ℚ) (hv : 0 < v) :
    days_remaining b v = b / v ∧
    days_remaining b v * v = b ∧
    (projector_band b v cap = Band.insufficient ↔ cap < projected_monthly v) ∧
    (projected_monthly v ≤ cap →
      ((projector_band b v cap = Band.excellent ↔ 12 * 30 ≤ days_remaining b v) ∧
       (projector_band b v cap = Band.good ↔
         6 * 30 ≤ days_remaining b v ∧ days_remaining b v < 12 * 30) ∧
       (projector_band b v cap = Band.attention ↔ days_remaining b v < 6 * 30))) ∧
    37 + 3 / 100 < days_remaining 1000000 27000 ∧
    days_remaining 1000000 27000 < 37 + 1 / 20 ∧
    projector_band 1000000 27000 1000000 = Band.attention := by
  refine ⟨rfl, div_mul_cancel₀ b (ne_of_gt hv), ?_, ?_,
    by norm_num [days_remaining], by norm_num [days_remaining], ?_⟩
  · rw [projector_band]
    by_cases h : cap < projected_monthly v
    · simp [h]
    · simp only [if_neg h]
      constructor
      · intro hc
        split_ifs at hc
      · exact fun hc => absurd hc h
  · intro hcap
    have hni : ¬ cap < projected_monthly v := not_lt.2 hcap
    rw [projector_band, if_neg hni]
    by_cases h12 : (12 * 30 : ℚ) ≤ days_remaining b v
    · rw [if_pos h12]
      refine ⟨⟨fun _ => h12, fun _ => rfl⟩, ?_, ?_⟩
      · exact ⟨fun hc => by simp at hc, fun hc => absurd hc.2 (not_lt.mpr h12)⟩
      · exact ⟨fun hc => by simp at hc,
          fun hc => absurd hc (not_lt.mpr (le_trans (by norm_num) h12))⟩
    · rw [if_neg h12]
      by_cases h6 : (6 * 30 : ℚ) ≤ days_remaining b v
      · rw [if_pos h6]
        refine ⟨⟨fun hc => by simp at hc, fun hc => absurd hc h12⟩, ?_, ?_⟩
        · exact ⟨fun _ => ⟨h6, not_le.1 h12⟩, fun _ => rfl⟩
        · exact ⟨fun hc => by simp at hc, fun hc => absurd hc (not_lt.mpr h6)⟩
      · rw [if_neg h6]
        refine ⟨⟨fun hc => by simp at hc, fun hc => absurd hc h12⟩, ?_, ?_⟩
        · exact ⟨fun hc => by simp at hc, fun hc => absurd hc.1 h6⟩
        · exact ⟨fun _ => not_le.1 h6, fun _ => rfl⟩
  · rw [projector_band, if_neg, if_neg, if_neg] <;>
      norm_num [projected_monthly, days_remaining]

/-- Witness for claim C2 at balance 1,000,000, velocity 27,000 and
capacity 1,000,000. -/
theorem sustainability_projection_witness :
    (0 : ℚ) < 27000 ∧
    (days_remaining 1000000 27000 = 1000000 / 27000 ∧
     days_remaining 1000000 27000 * 27000 = 1000000 ∧
     (projector_band 1000000 27000 1000000 = Band.insufficient ↔
       (1000000 : ℚ) < projected_monthly 27000) ∧
     (projected_monthly 27000 ≤ (1000000 : ℚ) →
       ((projector_band 1000000 27000 1000000 = Band.excellent ↔
          12 * 30 ≤ days_remaining 1000000 27000) ∧
        (projector_band 1000000 27000 1000000 = Band.good ↔
          6 * 30 ≤ days_remaining 1000000 27000 ∧
            days_remaining 1000000 27000 < 12 * 30) ∧
        (projector_band 1000000 27000 1000000 = Band.attention ↔
          days_remaining 1000000 27000 < 6 * 30))) ∧
     37 + 3 / 100 < days_remaining 1000000 27000 ∧
     days_remaining 1000000 27000 < 37 + 1 / 20 ∧
     projector_band 1000000 27000 1000000 = Band.attention) :=
  ⟨by norm_num, sustainability_projection 1000000 27000 1000000 (by norm_num)⟩

/-- Claim C3: 700 listeners at 60 minutes per day under the current rates
emit 75,600 DYO per day and 2,268,000 DYO per month, which exceeds the
1,000,000 capacity, so the pool lasts strictly between 13.22 and 13.24
days (about 13.23) and the scenario is classified insufficient; the 700
listeners arise as int(1000 times 0.7) in the audit script. -/
theorem scenario_700_insufficient :
    Auditoria.listeners_of 1000 (7 / 10) = 700 ∧
    Auditoria.total_dyo_per_day 700 60 = 75600 ∧
    Auditoria.total_dyo_per_month 700 60 = 2268000 ∧
    Auditoria.POOL_MONTHLY < Auditoria.total_dyo_per_month 700 60 ∧
    Auditoria.classify (Auditoria.total_dyo_per_month 700 60) = Band.insufficient ∧
    Correcciones.total_dyo_per_day = 75600 ∧
    13 + 9 / 40 < Correcciones.days_lasting ∧
    Correcciones.days_lasting < 13 + 47 / 200 := by
  have hmonth : Auditoria.total_dyo_per_month 700 60 = 2268000 := by
    norm_num [Auditoria.total_dyo_per_month, Auditoria.total_dyo_per_day,
      Auditoria.listener_dyo_per_day, Auditoria.artist_dyo_per_day,
      Auditoria.actual_minutes_listeners, Auditoria.LISTENER_RATE, Auditoria.ARTIST_RATE,
      Auditoria.DAILY_LIMIT_LISTENER, Auditoria.DAYS_PER_MONTH]
  refine ⟨by norm_num [Auditoria.listeners_of], ?_, hmonth, ?_, ?_, ?_, ?_, ?_⟩
  · norm_num [Auditoria.total_dyo_per_day, Auditoria.listener_dyo_per_day,
      Auditoria.artist_dyo_per_day, Auditoria.actual_minutes_listeners,
      Auditoria.LISTENER_RATE, Auditoria.ARTIST_RATE, Auditoria.DAILY_LIMIT_LISTENER]
  · rw [hmonth]
    norm_num [Auditoria.POOL_MONTHLY]
  · rw [hmonth, Auditoria.classify, if_neg]
    norm_num [Auditoria.pool_percentage, Auditoria.POOL_MONTHLY]
  · norm_num [Correcciones.total_dyo_per_day, Correcciones.listener_dyo_per_day,
      Correcciones.artist_dyo_per_day, Correcciones.LISTENERS, Correcciones.AVG_MINUTES,
      Correcciones.LISTENER_RATE_CURRENT, Correcciones.ARTIST_RATE_CURRENT]
  · norm_num [Correcciones.days_lasting, Correcciones.total_dyo_per_day,
      Correcciones.listener_dyo_per_day, Correcciones.artist_dyo_per_day,
      Correcciones.LISTENERS, Correcciones.AVG_MINUTES, Correcciones.LISTENER_RATE_CURRENT,
      Correcciones.ARTIST_RATE_CURRENT, Correcciones.POOL_CURRENT]
  · norm_num [Correcciones.days_lasting, Correcciones.total_dyo_per_day,
      Correcciones.listener_dyo_per_day, Correcciones.artist_dyo_per_day,
      Correcciones.LISTENERS, Correcciones.AVG_MINUTES, Correcciones.LISTENER_RATE_CURRENT,
      Correcciones.ARTIST_RATE_CURRENT, Correcciones.POOL_CURRENT]

/-- The proposed total rate, unfolded to the reduced fraction 50/63. -/
theorem target_total_rate_eq : Correcciones.target_total_rate = 50 / 63 := by
  norm_num [Correcciones.target_total_rate, Correcciones.target_dyo_per_day,
    Correcciones.total_listening_minutes, Correcciones.POOL_CURRENT,
    Correcciones.DAYS_TARGET, Correcciones.LISTENERS, Correcciones.AVG_MINUTES]

/-- Claim C4: the corrected-rate proposal computes the combined rate as
capacity divided by target runway times total daily listening minutes
(here 42,000 minutes per day), splits it 5 to 1 between artist and
listener, and yields a total rate within 0.0001 of 0.7937, a listener
rate within 0.0001 of 0.1323 and an artist rate within 0.0001 of
0.6614. -/
theorem rate_correction_proposal :
    Correcciones.total_listening_minutes = 42000 ∧
    Correcciones.target_total_rate =
      Correcciones.POOL_CURRENT /
        (Correcciones.DAYS_TARGET * Correcciones.total_listening_minutes) ∧
    Correcciones.proposed_listener_rate = Correcciones.target_total_rate / 6 ∧
    Correcciones.proposed_artist_rate = 5 * Correcciones.target_total_rate / 6 ∧
    |Correcciones.target_total_rate - 7937 / 10000| < 1 / 10000 ∧
    |Correcciones.proposed_listener_rate - 1323 / 10000| < 1 / 10000 ∧
    |Correcciones.proposed_artist_rate - 6614 / 10000| < 1 / 10000 := by
  have hl : Correcciones.proposed_listener_rate = 25 / 189 := by
    rw [Correcciones.proposed_listener_rate, target_total_rate_eq]
    norm_num
  have ha : Correcciones.proposed_artist_rate = 125 / 189 := by
    rw [Correcciones.proposed_artist_rate, hl]
    norm_num
  refine ⟨?_, ?_, rfl, ?_, ?_, ?_, ?_⟩
  · norm_num [Correcciones.total_listening_minutes, Correcciones.LISTENERS,
      Correcciones.AVG_MINUTES]
  · rw [Correcciones.target_total_rate, Correcciones.target_dyo_per_day, div_div]
  · rw [Correcciones.proposed_artist_rate, Correcciones.proposed_listener_rate]
    ring
  · rw [target_total_rate_eq, abs_sub_lt_iff]
    norm_num
  · rw [hl, abs_sub_lt_iff]
    norm_num
  · rw [ha, abs_sub_lt_iff]
    norm_num

/-- Claim C5: the quota grant returns min(requested, cap minus used), a
truncation that never exceeds the request and never drives the total used
minutes past the cap, and the emission shares on the session path are
computed from the granted, post-cap minutes; the audit script applies the
same truncation with used = 0 in its capped-minutes expression. -/
theorem quota_grant_truncation (used cap requested lrate arate : ℚ) :
    check_and_reserve used cap requested = min requested (cap - used) ∧
    check_and_reserve used cap requested ≤ requested ∧
    used + check_and_reserve used cap requested ≤ cap ∧
    session_emission used cap requested lrate arate =
      (check_and_reserve used cap requested * lrate,
       check_and_reserve used cap requested * arate) ∧
    Auditoria.actual_minutes_listeners requested =
      check_and_reserve 0 Auditoria.DAILY_LIMIT_LISTENER requested := by
  refine ⟨rfl, min_le_left _ _, ?_, rfl, ?_⟩
  · have h := min_le_right requested (cap - used)
    rw [check_and_reserve]
    linarith
  · rw [Auditoria.actual_minutes_listeners, check_and_reserve, sub_zero]

/-- Over any sequence of debit attempts, the emitted shares sum to the
drop in the remaining balance. -/
theorem run_debits_emitted_sum (s : PoolState) (reqs : List (ℚ × ℚ)) :
    emitted_sum (run_debits s reqs).2 = s.remaining - (run_debits s reqs).1.remaining := by
  induction reqs generalizing s with
  | nil => simp [run_debits, emitted_sum]
  | cons p rest ih =>
    obtain ⟨l, a⟩ := p
    by_cases h : l + a ≤ s.remaining
    · simp only [run_debits, debit, if_pos h]
      simp only [emitted_sum, List.map_cons, List.sum_cons] at *
      rw [ih]
      simp only [EmissionRecord.total]
      ring
    · simp only [run_debits, debit, if_neg h]
      exact ih s

/-- Debits never change the pool capacity. -/
theorem run_debits_capacity (s : PoolState) (reqs : List (ℚ × ℚ)) :
    (run_debits s reqs).1.capacity = s.capacity := by
  induction reqs generalizing s with
  | nil => simp [run_debits]
  | cons p rest ih =>
    obtain ⟨l, a⟩ := p
    by_cases h : l + a ≤ s.remaining
    · simp only [run_debits, debit, if_pos h]
      rw [ih]
    · simp only [run_debits, debit, if_neg h]
      exact ih s

/-- Claim C6: conservation. Starting from a pool whose remaining balance
equals its capacity, after any sequence of debit attempts (any
linearization of an epoch, failed debits skipped) the sum of all emitted
listener and artist shares equals capacity minus the remaining balance
exactly, and the capacity is unchanged; since the sequence is arbitrary,
the equation holds after every debit. -/
theorem debit_conservation (s : PoolState) (reqs : List (ℚ × ℚ))
    (h : s.remaining = s.capacity) :
    emitted_sum (run_debits s reqs).2 =
      s.capacity - (run_debits s reqs).1.remaining ∧
    (run_debits s reqs).1.capacity = s.capacity := by
  constructor
  · rw [run_debits_emitted_sum, h]
  · exact run_debits_capacity s reqs

/-- Witness for claim C6: a pool of capacity 100 with debit requests
(10, 50), (30, 20) and (5, 1); the second request fails and is skipped,
and the emitted total 66 equals 100 minus the final balance 34. -/
theorem debit_conservation_witness :
    (⟨100, 100⟩ : PoolState).remaining = (⟨100, 100⟩ : PoolState).capacity ∧
    (emitted_sum (run_debits ⟨100, 100⟩ [(10, 50), (30, 20), (5, 1)]).2 =
       (⟨100, 100⟩ : PoolState).capacity -
         (run_debits ⟨100, 100⟩ [(10, 50), (30, 20), (5, 1)]).1.remaining ∧
     (run_debits ⟨100, 100⟩ [(10, 50), (30, 20), (5, 1)]).1.capacity =
       (⟨100, 100⟩ : PoolState).capacity) ∧
    emitted_sum (run_debits ⟨100, 100⟩ [(10, 50), (30, 20), (5, 1)]).2 = 66 ∧
    (run_debits ⟨100, 100⟩ [(10, 50), (30, 20), (5, 1)]).1.remaining = 34 := by
  refine ⟨rfl, debit_conservation ⟨100, 100⟩ _ rfl, ?_, ?_⟩ <;>
    norm_num [run_debits, debit, emitted_sum, EmissionRecord.total]

/-- Claim C7: non-negativity. Starting from any pool state with a
non-negative remaining balance (in particular a fresh pool at any
non-negative capacity), the remaining balance stays non-negative after
every sequence of debit attempts, in any order. -/
theorem debit_nonneg (s : PoolState) (reqs : List (ℚ × ℚ))
    (h : 0 ≤ s.remaining) : 0 ≤ (run_debits s reqs).1.remaining := by
  induction reqs generalizing s with
  | nil => simpa [run_debits] using h
  | cons p rest ih =>
    obtain ⟨l, a⟩ := p
    by_cases hd : l + a ≤ s.remaining
    · simp only [run_debits, debit, if_pos hd]
      refine ih _ ?_
      simp only
      linarith
    · simp only [run_debits, debit, if_neg hd]
      exact ih s h

/-- Witness for claim C7: a pool of capacity 100 facing an oversized
request (60, 60), which is skipped, then (10, 20); the balance stays
non-negative. -/
theorem debit_nonneg_witness :
    (0 : ℚ) ≤ (⟨100, 100⟩ : PoolState).remaining ∧
    0 ≤ (run_debits ⟨100, 100⟩ [(60, 60), (10, 20)]).1.remaining :=
  ⟨by norm_num, debit_nonneg ⟨100, 100⟩ [(60, 60), (10, 20)] (by norm_num)⟩

/-- Claim C8, counterexample: the emission value new_listener_dyo of the
correction script equals 50000/9, whose product with 100 is not an
integer, so the arithmetic of the scripts is not carried out at a fixed
two-decimal precision. -/
theorem fixed_precision_cex :
    Correcciones.new_listener_dyo = 50000 / 9 ∧
    (Correcciones.new_listener_dyo * 100).den ≠ 1 := by
  have h : Correcciones.new_listener_dyo = 50000 / 9 := by
    rw [Correcciones.new_listener_dyo, Correcciones.proposed_listener_rate,
      target_total_rate_eq]
    norm_num [Correcciones.LISTENERS, Correcciones.AVG_MINUTES]
  refine ⟨h, ?_⟩
  rw [h]
  norm_num

/-- Claim C8 (amended): the emission arithmetic of the scripts is plain
full-precision arithmetic with no fixed-decimal quantization step: the
verification emissions under the proposed rates are 50000/9 and 250000/9
DYO per day (denominator 9, hence not multiples of 0.01), and their sum
is formed exactly as 100000/3 with no rounding. -/
theorem emission_unquantized :
    Correcciones.new_listener_dyo = 50000 / 9 ∧
    Correcciones.new_artist_dyo = 250000 / 9 ∧
    Correcciones.new_total_dyo =
      Correcciones.new_listener_dyo + Correcciones.new_artist_dyo ∧
    (Correcciones.new_listener_dyo * 100).den = 9 ∧
    Correcciones.new_total_dyo = 100000 / 3 := by
  have hl : Correcciones.new_listener_dyo = 50000 / 9 := by
    rw [Correcciones.new_listener_dyo, Correcciones.proposed_listener_rate,
      target_total_rate_eq]
    norm_num [Correcciones.LISTENERS, Correcciones.AVG_MINUTES]
  have ha : Correcciones.new_artist_dyo = 250000 / 9 := by
    rw [Correcciones.new_artist_dyo, Correcciones.proposed_artist_rate,
      Correcciones.proposed_listener_rate, target_total_rate_eq]
    norm_num [Correcciones.LISTENERS, Correcciones.AVG_MINUTES]
  refine ⟨hl, ha, rfl, ?_, ?_⟩
  · rw [hl]
    norm_num
  · rw [Correcciones.new_total_dyo, hl, ha]
    norm_num

/-- Claim C9, counterexample: three distinct accounts on the same IP
fingerprint, each having used exactly the 90-minute daily limit, do not
raise the IP-cluster alert of the audit script, whose threshold is more
than 5 accounts, not 3. -/
theorem ip_cluster_default_cex :
    3 ≤ accounts_at_limit_on_ip [⟨1, 7, 90⟩, ⟨2, 7, 90⟩, ⟨3, 7, 90⟩] 7 ∧
    ip_cluster_alert [⟨1, 7, 90⟩, ⟨2, 7, 90⟩, ⟨3, 7, 90⟩] 7 = false := by
  constructor <;>
    norm_num [ip_cluster_alert, accounts_at_limit_on_ip, reaches_daily_limit,
      Auditoria.DAILY_LIMIT_LISTENER, List.filter, List.dedup]

/-- Claim C9 (amended): the IP-cluster alert of the audit script fires
exactly when at least 6 (that is, more than 5) distinct accounts sharing
the device/IP fingerprint each reach the daily cap; the value 3 appears
in the script only as the anti-farm limit on simultaneously active
accounts per IP, not as the alert threshold. -/
theorem ip_cluster_threshold (obs : List AccountObs) (ip : ℕ) :
    (ip_cluster_alert obs ip = true ↔ 6 ≤ accounts_at_limit_on_ip obs ip) ∧
    MAX_ACTIVE_ACCOUNTS_PER_IP = 3 := by
  refine ⟨?_, rfl⟩
  rw [ip_cluster_alert, decide_eq_true_iff]
  omega

/-- Claim C10: the sustainability computation is total at zero velocity.
Whenever the projected monthly emission of a scenario is 0, the guard in
the audit script yields infinitely many months of runway (the top
element) instead of a division error, and a classification band is still
produced, namely excellent. -/
theorem zero_velocity_total_band (listeners avg_min : ℚ)
    (h : Auditoria.total_dyo_per_month listeners avg_min = 0) :
    Auditoria.months_sustainable (Auditoria.total_dyo_per_month listeners avg_min) = ⊤ ∧
    Auditoria.classify (Auditoria.total_dyo_per_month listeners avg_min) =
      Band.excellent := by
  rw [h]
  constructor
  · rw [Auditoria.months_sustainable, if_neg]
    norm_num
  · rw [Auditoria.classify, if_pos, if_pos]
    · rw [Auditoria.months_sustainable, if_neg]
      · exact le_top
      · norm_num
    · norm_num [Auditoria.pool_percentage, Auditoria.POOL_MONTHLY]

/-- Witness for claim C10: a scenario with zero listeners has projected
monthly emission 0, months_sustainable is the top element and the band is
excellent. -/
theorem zero_velocity_total_band_witness :
    Auditoria.total_dyo_per_month 0 60 = 0 ∧
    (Auditoria.months_sustainable (Auditoria.total_dyo_per_month 0 60) = ⊤ ∧
     Auditoria.classify (Auditoria.total_dyo_per_month 0 60) = Band.excellent) :=
  ⟨by norm_num [Auditoria.total_dyo_per_month, Auditoria.total_dyo_per_day,
      Auditoria.listener_dyo_per_day, Auditoria.artist_dyo_per_day],
   zero_velocity_total_band 0 60
     (by norm_num [Auditoria.total_dyo_per_month, Auditoria.total_dyo_per_day,
       Auditoria.listener_dyo_per_day, Auditoria.artist_dyo_per_day])⟩
